import Mathlib

/-!
Verification development for the pyxldrawer layout library.

The repository contains two revisions of most classes:
  * `pyxldrawer/elements.py` and `pyxldrawer/drawer.py` / `pyxldrawer/pyxldrawer.py`
    (monolithic revision), and
  * `pyxldrawer/elements/basic.py`, `pyxldrawer/elements/matrix.py`,
    `pyxldrawer/elements/complex.py` (split revision).
Both are embedded below; the namespaces `Elems`, `Basic`, `MatrixPy` and the
`Drawer` namespace mark which source file each definition is translated from.

The external xlsxwriter library is a black box: `xl_rowcol_to_cell` is modelled
as the identity on (row, col) pairs, and worksheet calls (`write`,
`merge_range`, `write_comment`, `set_column`) are recorded as a list of
`WsOp` operations instead of being performed.  Python ints are modelled as
`Int`, Python floats appearing in column widths as `ℚ` (the source only ever
computes ratios of integers and user-supplied numeric literals), and Python
exceptions as the explicit error type `PyErr`.
-/

/-- Python exception kinds raised by the code under study. -/
inductive PyErr : Type where
  | typeError
  | valueError
  | indexError
  | keyError
  | nameError
deriving DecidableEq

/-- Python values that are stored in cells in the claims under study. -/
inductive PyVal : Type where
  | vNone
  | vStr (s : String)
  | vInt (n : Int)
deriving DecidableEq

/-- pandas.isnull restricted to the modelled values: only None is null. -/
def pandasIsnull : PyVal → Bool
  | .vNone => true
  | _ => false

/-- Python str() on the modelled values. -/
def pyStr : PyVal → String
  | .vNone => "None"
  | .vStr s => s
  | .vInt n => toString n

/-- A style dict; resolution to a native handle is owned by the external
library and never inspected, so the dict itself is carried around. -/
def Style : Type := List (String × String)

instance : DecidableEq Style := by
  unfold Style
  infer_instance

/-- Worksheet operations issued while drawing (the external boundary).
`xl_rowcol_to_cell` is the identity on coordinates, so ranges carry the
numeric corners that the source turns into excel addresses. -/
inductive WsOp : Type where
  | write (row col : Int) (value : PyVal) (style : Style)
  | mergeRange (firstRow firstCol lastRow lastCol : Int) (value : PyVal) (style : Style)
  | writeComment (row col : Int) (text : String) (params : List (String × String))
  | setColumn (firstCol lastCol : Int) (width : ℚ)
deriving DecidableEq

/-- Shared field layout of the Element class (identical in
`elements.py` and `elements/basic.py`). -/
structure Element : Type where
  value : PyVal
  height : Int
  width : Int
  style : Style
  comment : Option String
  comment_params : List (String × String)
deriving DecidableEq

namespace Elems

/-- Element.__init__ of `elements.py`: the value setter normalises null
values to the empty string (pandas.isnull); the height and width setters
reject non-positive values with ValueError (the isinstance int check cannot
fire since the model's coordinates are ints). -/
def Element.init (value : PyVal) (height width : Int) (style : Style)
    (comment : Option String) (comment_params : List (String × String)) :
    Except PyErr Element :=
  let value := if pandasIsnull value then .vStr ("") else value
  if height ≤ 0 then .error .valueError
  else if width ≤ 0 then .error .valueError
  else .ok ⟨value, height, width, style, comment, comment_params⟩

/-- Element.xl_upleft of `elements.py` (x is the row, y the column). -/
def Element.xl_upleft (x y : Int) : Int × Int := (x, y)

/-- Element.xl_loright of `elements.py`:
`xl_rowcol_to_cell(x + self.height - 1, y + self.width - 1)`. -/
def Element.xl_loright (e : Element) (x y : Int) : Int × Int :=
  (x + e.height - 1, y + e.width - 1)

/-- Element.draw of `elements.py`: a single write when the extent is 1×1,
otherwise a merge of the range from the anchor to the lower-right corner;
afterwards the optional comment is attached at the upper-left corner. -/
def Element.draw (e : Element) (x y : Int) : List WsOp :=
  (if e.width = 1 ∧ e.height = 1 then
    [.write x y e.value e.style]
  else
    [.mergeRange x y (x + e.height - 1) (y + e.width - 1) e.value e.style])
  ++ (match e.comment with
      | some c => [.writeComment x y c e.comment_params]
      | none => [])

end Elems

namespace Basic

/-- Element.__init__ of `elements/basic.py`: same validation, but the value
is stored raw (this revision has no value property, hence no null
normalisation). -/
def Element.init (value : PyVal) (height width : Int) (style : Style)
    (comment : Option String) (comment_params : List (String × String)) :
    Except PyErr Element :=
  if height ≤ 0 then .error .valueError
  else if width ≤ 0 then .error .valueError
  else .ok ⟨value, height, width, style, comment, comment_params⟩

/-- Element.xl_upleft of `elements/basic.py`:
`xl_rowcol_to_cell(y, x)` — this revision passes y as the row. -/
def Element.xl_upleft (x y : Int) : Int × Int := (y, x)

/-- Element.xl_loright of `elements/basic.py`:
`xl_rowcol_to_cell(y + self.height - 1, x + self.width - 1)`. -/
def Element.xl_loright (e : Element) (x y : Int) : Int × Int :=
  (y + e.height - 1, x + e.width - 1)

/-- Element.draw of `elements/basic.py`.  The source tests the anchor,
`if x == 1 and y == 1`, not the extent, before choosing between a plain
write and a range merge. -/
def Element.draw (e : Element) (x y : Int) : List WsOp :=
  (if x = 1 ∧ y = 1 then
    [.write x y e.value e.style]
  else
    [.mergeRange y x (y + e.height - 1) (x + e.width - 1) e.value e.style])
  ++ (match e.comment with
      | some c => [.writeComment y x c e.comment_params]
      | none => [])

end Basic

/-- Argument forms accepted by the col_width setters. -/
inductive ColWidthArg : Type where
  | strA (s : String)
  | noneA
  | numA (q : ℚ)
  | nonNumericA
deriving DecidableEq

namespace Elems

/-- Normalised col_width values stored by `elements.py` HeaderElement. -/
inductive ColWidth : Type where
  | auto
  | none
  | fixed (w : ℚ)
deriving DecidableEq

/-- The col_width setter of `elements.py`: a string must be 'auto'
(ValueError otherwise), None passes, anything else is coerced with float()
(TypeError when not coercible; the repository only ever passes 'auto', None
or numbers, so numeric strings are not modelled). -/
def setColWidth : ColWidthArg → Except PyErr ColWidth
  | .strA s => if s = "auto" then .ok .auto else .error .valueError
  | .noneA => .ok .none
  | .numA q => .ok (.fixed q)
  | .nonNumericA => .error .typeError

/-- HeaderElement of `elements.py`. -/
structure HeaderElement extends Element where
  col_width : ColWidth
  padding : ℚ
deriving DecidableEq

/-- HeaderElement.__init__ of `elements.py`. -/
def HeaderElement.init (value : PyVal) (height width : Int) (style : Style)
    (comment : Option String) (comment_params : List (String × String))
    (col_width : ColWidthArg) (padding : ℚ) : Except PyErr HeaderElement :=
  match Element.init value height width style comment comment_params with
  | .error e => .error e
  | .ok base =>
    match setColWidth col_width with
    | .error e => .error e
    | .ok cw => .ok ⟨base, cw, padding⟩

/-- HeaderElement._value_len of `elements.py`: the length of str(value),
or None (modelled as Option.none) when the value is None. -/
def HeaderElement.value_len (h : HeaderElement) : Option Nat :=
  if h.value ≠ .vNone then some (pyStr h.value).length else none

/-- HeaderElement.draw of `elements.py`: the base draw, then a set_column
call spanning the occupied columns.  A fixed float width is used as is;
'auto' computes (len + 2*padding) / width, where a TypeError from a missing
length is caught and turns the sizing into a no-op; None skips sizing. -/
def HeaderElement.draw (h : HeaderElement) (x y : Int) : List WsOp :=
  Element.draw h.toElement x y
  ++ (match h.col_width with
      | .fixed q => [.setColumn y (y + h.width - 1) q]
      | .auto =>
          match h.value_len with
          | some n => [.setColumn y (y + h.width - 1) (((n : ℚ) + h.padding * 2) / (h.width : ℚ))]
          | none => []
      | .none => [])

end Elems

namespace Basic

/-- HeaderElement of `elements/basic.py`: its col_width setter is
`float(value)`, so only numeric widths are storable. -/
structure HeaderElement extends Element where
  col_width : ℚ
  padding : ℚ
deriving DecidableEq

/-- The col_width setter of `elements/basic.py` is a bare float():
float('auto') raises ValueError and float(None) raises TypeError, so the
documented 'auto' and None settings reject at assignment. -/
def floatColWidth : ColWidthArg → Except PyErr ℚ
  | .strA _ => .error .valueError
  | .noneA => .error .typeError
  | .numA q => .ok q
  | .nonNumericA => .error .typeError

/-- HeaderElement.__init__ of `elements/basic.py`. -/
def HeaderElement.init (value : PyVal) (height width : Int) (style : Style)
    (comment : Option String) (comment_params : List (String × String))
    (col_width : ColWidthArg) (padding : ℚ) : Except PyErr HeaderElement :=
  match Element.init value height width style comment comment_params with
  | .error e => .error e
  | .ok base =>
    match floatColWidth col_width with
    | .error e => .error e
    | .ok cw => .ok ⟨base, cw, padding⟩

/-- HeaderElement.draw of `elements/basic.py`.  Since the stored col_width
is always a float, the isinstance float branch always runs and set_column
spans x .. x + width - 1 (this revision treats x as the column). -/
def HeaderElement.draw (h : HeaderElement) (x y : Int) : List WsOp :=
  Element.draw h.toElement x y ++ [.setColumn x (x + h.width - 1) h.col_width]

end Basic

/-- Matrix.lists_to_matrix (identical in `elements.py` and
`elements/matrix.py`): nested row-major lists become a mapping keyed by
(row, col); sub-lists of unequal lengths raise ValueError, and an empty
outer list makes the max() over lengths raise ValueError.  Under the
equal-length guard the per-row enumeration coincides with the source's
index loops over range(n) × range(m). -/
def pyListsToMatrix {α : Type} (L : List (List α)) :
    Except PyErr (List ((Int × Int) × α)) :=
  match L.map List.length with
  | [] => .error .valueError
  | l :: ls =>
    if ls.foldl max l = ls.foldl min l then
      .ok ((L.enum.map (fun p =>
        p.2.enum.map (fun q => (((p.1 : Int), (q.1 : Int)), q.2)))).flatten)
    else .error .valueError

/-- Matrix._count_rows: max of the first key components plus one;
max() on an empty mapping raises ValueError. -/
def pyCountRows {α : Type} (m : List ((Int × Int) × α)) : Except PyErr Int :=
  match m.map (fun p => p.1.1) with
  | [] => .error .valueError
  | a :: as => .ok (as.foldl max a + 1)

/-- Matrix._count_cols: max of the second key components plus one. -/
def pyCountCols {α : Type} (m : List ((Int × Int) × α)) : Except PyErr Int :=
  match m.map (fun p => p.1.2) with
  | [] => .error .valueError
  | a :: as => .ok (as.foldl max a + 1)

/-- Python range(n) as a list of ints. -/
def rangeInt (n : Int) : List Int :=
  (List.range n.toNat).map (fun (k : Nat) => (k : Int))

/-- Classes that can be passed (as class objects) to Matrix.set. -/
inductive PyClassV : Type where
  | elementC
  | headerElementC
  | otherC
deriving DecidableEq

namespace Elems

/-- Matrix of `elements.py`: a mapping from (row, col) to HeaderElement
(make_element_matrix always builds HeaderElements), with the cached
nrow/ncol counts and the height/width attributes set by the constructor. -/
structure Matrix : Type where
  matrix : List ((Int × Int) × HeaderElement)
  nrow : Int
  ncol : Int
  height : Int
  width : Int
deriving DecidableEq

/-- Matrix.get of `elements.py`: integer indices (guaranteed by the model's
types), bounds checks against nrow/ncol, then the mapping lookup. -/
def Matrix.get (M : Matrix) (x y : Int) : Except PyErr HeaderElement :=
  if x < 0 ∨ x > M.nrow - 1 then .error .indexError
  else if y < 0 ∨ y > M.ncol - 1 then .error .indexError
  else
    match M.matrix.lookup (x, y) with
    | some e => .ok e
    | none => .error .keyError

/-- The possible arguments of Matrix.set: an instance of Element, an
instance of HeaderElement, or a class object. -/
inductive SetValue : Type where
  | instE (e : Element)
  | instH (h : HeaderElement)
  | classV (c : PyClassV)
deriving DecidableEq

/-- Entries a mapping can hold after Matrix.set stored into it: previously
held element instances, or a class object smuggled through the
issubclass check. -/
inductive MatEntry : Type where
  | instE (e : Element)
  | instH (h : HeaderElement)
  | cls (c : PyClassV)
deriving DecidableEq

/-- Python issubclass(value, Element): raises TypeError when the first
argument is an instance rather than a class. -/
def issubclassOfElement : SetValue → Except PyErr Bool
  | .instE _ => .error .typeError
  | .instH _ => .error .typeError
  | .classV c => .ok (c = .elementC ∨ c = .headerElementC : Bool)

/-- Python dict assignment d[k] = v on an association list. -/
def dictSet {α : Type} (m : List ((Int × Int) × α)) (k : Int × Int) (v : α) :
    List ((Int × Int) × α) :=
  if (m.lookup k).isSome then
    m.map (fun p => if p.1 = k then (k, v) else p)
  else m ++ [(k, v)]

/-- Matrix.set of `elements.py` (textually identical in
`elements/matrix.py`): the issubclass test runs first, then the index type
and bounds checks, then the assignment.  An error leaves the mapping as it
was (the model returns the would-be mapping only on success). -/
def Matrix.set (M : Matrix) (x y : Int) (value : SetValue) :
    Except PyErr (List ((Int × Int) × MatEntry)) :=
  match issubclassOfElement value with
  | .error e => .error e
  | .ok b =>
    if ¬ b then .error .typeError
    else if x < 0 ∨ x > M.nrow - 1 then .error .indexError
    else if y < 0 ∨ y > M.ncol - 1 then .error .indexError
    else
      .ok (dictSet (M.matrix.map (fun p => (p.1, MatEntry.instH p.2))) (x, y)
        (match value with
         | .instE e => .instE e
         | .instH h => .instH h
         | .classV c => .cls c))

/-- The inner loop of Matrix.draw of `elements.py`: each cell of row i is
drawn at the running (x, y), y advances by the cell's width, and the
running row height is raised to the cell's height when larger.  Returns
the drawn operations and the final row height. -/
def Matrix.drawRow (M : Matrix) (i : Int) (js : List Int) (x y height : Int) :
    Except PyErr (List WsOp × Int) :=
  match js with
  | [] => .ok ([], height)
  | j :: rest =>
    match M.get i j with
    | .error e => .error e
    | .ok elem =>
      match Matrix.drawRow M i rest x (y + elem.width)
          (if elem.height > height then elem.height else height) with
      | .error e => .error e
      | .ok (ops, h) => .ok (HeaderElement.draw elem x y ++ ops, h)

/-- The outer loop of Matrix.draw of `elements.py`: after each row, y is
reset to the anchor column and x advances by the row height computed by
the inner loop (which starts from 1). -/
def Matrix.drawRows (M : Matrix) (is : List Int) (x y0 : Int) :
    Except PyErr (List WsOp) :=
  match is with
  | [] => .ok []
  | i :: rest =>
    match Matrix.drawRow M i (rangeInt M.ncol) x y0 1 with
    | .error e => .error e
    | .ok (ops, h) =>
      match Matrix.drawRows M rest (x + h) y0 with
      | .error e => .error e
      | .ok more => .ok (ops ++ more)

/-- Matrix.draw of `elements.py`. -/
def Matrix.draw (M : Matrix) (x y : Int) : Except PyErr (List WsOp) :=
  Matrix.drawRows M (rangeInt M.nrow) x y

end Elems

namespace MatrixPy

/-- Matrix of `elements/matrix.py`: the cells are basic.py HeaderElements. -/
structure Matrix : Type where
  matrix : List ((Int × Int) × Basic.HeaderElement)
  nrow : Int
  ncol : Int
  height : Int
  width : Int
deriving DecidableEq

/-- Matrix.get of `elements/matrix.py` (same logic as in elements.py). -/
def Matrix.get (M : Matrix) (x y : Int) : Except PyErr Basic.HeaderElement :=
  if x < 0 ∨ x > M.nrow - 1 then .error .indexError
  else if y < 0 ∨ y > M.ncol - 1 then .error .indexError
  else
    match M.matrix.lookup (x, y) with
    | some e => .ok e
    | none => .error .keyError

/-- The inner loop of Matrix.draw of `elements/matrix.py`: cells advance x
by their width; the loop also maintains the running max height exactly as
the source does, but that value is dead — the caller uses the height of
the LAST cell of the row (the loop variable elem after the loop), which is
the third component returned here.  An empty column range would leave elem
unbound (NameError). -/
def Matrix.drawRow (M : Matrix) (i : Int) (js : List Int) (x y height : Int) :
    Except PyErr (List WsOp × Int × Int) :=
  match js with
  | [] => .error .nameError
  | [j] =>
    match M.get i j with
    | .error e => .error e
    | .ok elem =>
      .ok (Basic.HeaderElement.draw elem x y,
        (if elem.height > height then elem.height else height), elem.height)
  | j :: rest =>
    match M.get i j with
    | .error e => .error e
    | .ok elem =>
      match Matrix.drawRow M i rest (x + elem.width) y
          (if elem.height > height then elem.height else height) with
      | .error e => .error e
      | .ok (ops, hmax, lastH) =>
        .ok (Basic.HeaderElement.draw elem x y ++ ops, hmax, lastH)

/-- The outer loop of Matrix.draw of `elements/matrix.py`: after each row,
x is reset to the anchor and y advances by the last cell's height
(`y += elem.height`), not by the computed row max. -/
def Matrix.drawRows (M : Matrix) (is : List Int) (x0 y : Int) :
    Except PyErr (List WsOp) :=
  match is with
  | [] => .ok []
  | i :: rest =>
    match Matrix.drawRow M i (rangeInt M.ncol) x0 y 1 with
    | .error e => .error e
    | .ok (ops, _hmax, lastH) =>
      match Matrix.drawRows M rest x0 (y + lastH) with
      | .error e => .error e
      | .ok more => .ok (ops ++ more)

/-- Matrix.draw of `elements/matrix.py`. -/
def Matrix.draw (M : Matrix) (x y : Int) : Except PyErr (List WsOp) :=
  Matrix.drawRows M (rangeInt M.nrow) x y

end MatrixPy

namespace Elems

/-- TreeElement of `elements.py` (the constructor is textually identical in
`elements/complex.py`; only the draw offsets differ between revisions). -/
structure TreeElement : Type where
  parent : Element
  children : Matrix
  height : Int
  width : Int
deriving DecidableEq

/-- TreeElement.__init__: a width mismatch between parent and children
raises ValueError; otherwise height is the sum of the two heights and width
is the parent's width, both passing through setters that reject values
below one. -/
def TreeElement.init (parent : Element) (children : Matrix) :
    Except PyErr TreeElement :=
  if parent.width ≠ children.width then .error .valueError
  else if parent.height + children.height < 1 then .error .valueError
  else if parent.width < 1 then .error .valueError
  else .ok ⟨parent, children, parent.height + children.height, parent.width⟩

end Elems

/-- Drawer state (identical field layout in `drawer.py` and
`pyxldrawer.py`): position, extent of the last drawn object, the ordered
checkpoint dictionary and the two history lists. -/
structure Drawer : Type where
  x : Int
  y : Int
  height : Int
  width : Int
  checkpoints : List (String × (Int × Int))
  prev_x : List Int
  prev_y : List Int
deriving DecidableEq

namespace Drawer

/-- The x setter: negative values raise ValueError (the isinstance int
check cannot fire on the model's ints). -/
def setX (d : Drawer) (v : Int) : Except PyErr Drawer :=
  if v < 0 then .error .valueError else .ok { d with x := v }

/-- The y setter, same validation as the x setter. -/
def setY (d : Drawer) (v : Int) : Except PyErr Drawer :=
  if v < 0 then .error .valueError else .ok { d with y := v }

/-- Drawer.__init__ (both revisions): validated position, zero extent,
empty checkpoints and histories. -/
def init (x y : Int) : Except PyErr Drawer :=
  if x < 0 then .error .valueError
  else if y < 0 then .error .valueError
  else .ok ⟨x, y, 0, 0, [], [], []⟩

/-- Drawer.move (identical in both revisions): the current position is
appended to both history lists first, then x and y are incremented (or
decremented when back) one after the other through their setters.  A
setter failure propagates with the mutations made so far kept, so the
result pairs the partially updated state with the raised error. -/
def move (d : Drawer) (mx my : Int) (back : Bool) : Drawer × Option PyErr :=
  let d0 := { d with prev_x := d.prev_x ++ [d.x], prev_y := d.prev_y ++ [d.y] }
  if back then
    match setX d0 (d0.x - mx) with
    | .error e => (d0, some e)
    | .ok d1 =>
      match setY d1 (d1.y - my) with
      | .error e => (d1, some e)
      | .ok d2 => (d2, none)
  else
    match setX d0 (d0.x + mx) with
    | .error e => (d0, some e)
    | .ok d1 =>
      match setY d1 (d1.y + my) with
      | .error e => (d1, some e)
      | .ok d2 => (d2, none)

/-- OrderedDict assignment: replace in place when the key exists, append
otherwise. -/
def odSet (cps : List (String × (Int × Int))) (name : String) (v : Int × Int) :
    List (String × (Int × Int)) :=
  if (cps.lookup name).isSome then
    cps.map (fun p => if p.1 = name then (name, v) else p)
  else cps ++ [(name, v)]

/-- Drawer.add_checkpoint (both revisions). -/
def add_checkpoint (d : Drawer) (name : String) : Drawer :=
  { d with checkpoints := odSet d.checkpoints name (d.x, d.y) }

/-- Python list indexing with negative-index wrap-around; out of range
raises IndexError. -/
def pyIndex {α : Type} (l : List α) (i : Int) : Except PyErr α :=
  let j := if i < 0 then (l.length : Int) + i else i
  if 0 ≤ j then
    match l.get? j.toNat with
    | some a => .ok a
    | none => .error .indexError
  else .error .indexError

/-- Keys usable in a Python dict lookup: strings hash, char lists do not. -/
inductive PyKey : Type where
  | strK (s : String)
  | listK (cs : List String)
deriving DecidableEq

/-- Whether a key is hashable. -/
def PyKey.hashable : PyKey → Bool
  | .strK _ => true
  | .listK _ => false

/-- Python dict lookup: an unhashable key raises TypeError before any
comparison; otherwise a missing key raises KeyError. -/
def pyDictLookup (m : List (PyKey × (Int × Int))) (k : PyKey) :
    Except PyErr (Int × Int) :=
  if k.hashable then
    match m.lookup k with
    | some v => .ok v
    | none => .error .keyError
  else .error .typeError

/-- The checkpoint argument of Drawer.reset: a name, an integer index into
the insertion order, or None. -/
inductive CpRef : Type where
  | name (s : String)
  | idx (i : Int)
  | noneRef
deriving DecidableEq

/-- The coordinate assignments at the end of Drawer.reset: x first (when
its change flag is set), then y, each through its setter; a failure keeps
the mutations made so far. -/
def assignCoords (d0 : Drawer) (cx cy : Int) (change_x change_y : Bool) :
    Drawer × Option PyErr :=
  if change_x then
    match setX d0 cx with
    | .error e => (d0, some e)
    | .ok d1 =>
      if change_y then
        match setY d1 cy with
        | .error e => (d1, some e)
        | .ok d2 => (d2, none)
      else (d1, none)
  else
    if change_y then
      match setY d0 cy with
      | .error e => (d0, some e)
      | .ok d1 => (d1, none)
    else (d0, none)

/-- Drawer.reset of `pyxldrawer.py`.  The current position is appended to
the histories first.  A string checkpoint is looked up by name.  An integer
checkpoint evaluates `self.checkpoints[list(self.checkpoints.keys()[checkpoint])]`:
the index is applied to keys() BEFORE the list() conversion, so list() is
applied to the resulting key name and the char list is then used as a dict
key — an unhashable key, so the lookup raises TypeError (under Python 3 the
keys() view is not even subscriptable, also a TypeError).  With no
checkpoint the explicit coordinates are assigned.  (`drawer.py`'s reset
differs only in lacking the change flags: its `if x is not None` guards are
always true for the int coordinates modelled here.) -/
def reset (d : Drawer) (cp : CpRef) (xv yv : Int) (change_x change_y : Bool) :
    Drawer × Option PyErr :=
  let d0 := { d with prev_x := d.prev_x ++ [d.x], prev_y := d.prev_y ++ [d.y] }
  match cp with
  | .name s =>
    match d0.checkpoints.lookup s with
    | none => (d0, some .keyError)
    | some (cx, cy) => assignCoords d0 cx cy change_x change_y
  | .idx i =>
    match pyIndex (d0.checkpoints.map (fun p => p.1)) i with
    | .error e => (d0, some e)
    | .ok nm =>
      match pyDictLookup (d0.checkpoints.map (fun p => (PyKey.strK p.1, p.2)))
          (PyKey.listK (nm.data.map (fun c => String.mk [c]))) with
      | .error e => (d0, some e)
      | .ok (cx, cy) => assignCoords d0 cx cy change_x change_y
  | .noneRef => assignCoords d0 xv yv change_x change_y

/-- Drawer.fallback of `pyxldrawer.py`: the argument expressions
prev_x[-n] and prev_y[-n] are evaluated first, then reset is called with
checkpoint None and both change flags set. -/
def fallback (d : Drawer) (n : Int) : Drawer × Option PyErr :=
  match pyIndex d.prev_x (-n) with
  | .error e => (d, some e)
  | .ok xv =>
    match pyIndex d.prev_y (-n) with
    | .error e => (d, some e)
    | .ok yv => reset d .noneRef xv yv true true

/-- The parameter names of Drawer.reset in `drawer.py` (this revision's
reset has no change flags). -/
def resetParamNamesRev : List String := ["checkpoint", "x", "y"]

/-- The keyword arguments Drawer.fallback of `drawer.py` passes to reset. -/
def fallbackCallKeywords : List String :=
  ["checkpoint", "x", "y", "change_x", "change_y"]

/-- Drawer.fallback of `drawer.py`: the argument expressions are evaluated
first (IndexError when the history is too short); then the call itself
binds the keywords against reset's parameters — change_x and change_y are
not among them, so Python raises TypeError (unexpected keyword argument)
and the drawer is left unchanged. -/
def fallbackDrawerRev (d : Drawer) (n : Int) : Drawer × Option PyErr :=
  match pyIndex d.prev_x (-n) with
  | .error e => (d, some e)
  | .ok _ =>
    match pyIndex d.prev_y (-n) with
    | .error e => (d, some e)
    | .ok _ =>
      if fallbackCallKeywords.all (fun k => resetParamNamesRev.contains k) then
        (d, none)
      else (d, some .typeError)

end Drawer

/-- Specification-side walk of one matrix row, following the words of the
spec: each cell (given by the grid function f) is drawn at the running
anchor and the column cursor advances by that cell's own width. -/
def specRowOps (f : Int → Int → Elems.HeaderElement) (i : Int)
    (js : List Int) (x y : Int) : List WsOp :=
  match js with
  | [] => []
  | j :: rest =>
    Elems.HeaderElement.draw (f i j) x y
      ++ specRowOps f i rest x (y + (f i j).width)

/-- The running row height as the source folds it (initial 1, raised
whenever a cell is higher): with all cell heights ≥ 1 this is exactly the
maximum height among the row's cells. -/
def specRowHeight (f : Int → Int → Elems.HeaderElement) (i : Int)
    (js : List Int) (acc : Int) : Int :=
  js.foldl (fun a j => if (f i j).height > a then (f i j).height else a) acc

/-- Specification-side walk of the rows: rows in order, each drawn at the
anchor column, the row cursor advancing by that row's height. -/
def specRowsOps (f : Int → Int → Elems.HeaderElement) (is : List Int)
    (ncol : Int) (x y0 : Int) : List WsOp :=
  match is with
  | [] => []
  | i :: rest =>
    specRowOps f i (rangeInt ncol) x y0
      ++ specRowsOps f rest ncol (x + specRowHeight f i (rangeInt ncol) 1) y0

/-- C1: the claim says a 1×1 Element draws as a single-cell write at any
anchor and a larger Element merges its range.  `elements.py` does exactly
that (second and fourth conjuncts), but `elements/basic.py` decides by
testing the ANCHOR against (1, 1) instead of the extent: a 1×1 element
drawn at (0, 0) issues a one-cell merge_range (first conjunct), and a 2×3
element drawn at (1, 1) issues a plain single-cell write (third
conjunct). -/
theorem C1_draw_extent_vs_anchor :
    Basic.Element.draw ⟨.vStr ("A"), 1, 1, [], none, []⟩ 0 0
      = [.mergeRange 0 0 0 0 (.vStr ("A")) []] ∧
    Elems.Element.draw ⟨.vStr ("A"), 1, 1, [], none, []⟩ 0 0
      = [.write 0 0 (.vStr ("A")) []] ∧
    Basic.Element.draw ⟨.vStr ("B"), 2, 3, [], none, []⟩ 1 1
      = [.write 1 1 (.vStr ("B")) []] ∧
    Elems.Element.draw ⟨.vStr ("B"), 2, 3, [], none, []⟩ 1 1
      = [.mergeRange 1 1 2 3 (.vStr ("B")) []] :=
  ⟨rfl, rfl, rfl, rfl⟩

/-- C3: the claim says one successful move followed by fallback(1) restores
the pre-move position.  `pyxldrawer.py`'s fallback does (last conjunct:
position returns to (0, 0)), but `drawer.py`'s fallback passes the keyword
arguments change_x and change_y to a reset that does not accept them, so
every call raises TypeError and the drawer keeps the post-move position
(third conjunct). -/
theorem C3_move_then_fallback :
    Drawer.init 0 0 = .ok ⟨0, 0, 0, 0, [], [], []⟩ ∧
    Drawer.move ⟨0, 0, 0, 0, [], [], []⟩ 2 3 false
      = (⟨2, 3, 0, 0, [], [0], [0]⟩, none) ∧
    Drawer.fallbackDrawerRev ⟨2, 3, 0, 0, [], [0], [0]⟩ 1
      = (⟨2, 3, 0, 0, [], [0], [0]⟩, some .typeError) ∧
    Drawer.fallback ⟨2, 3, 0, 0, [], [0], [0]⟩ 1
      = (⟨0, 0, 0, 0, [], [0, 2], [0, 3]⟩, none) :=
  ⟨rfl, rfl, rfl, rfl⟩

/-- C4: for a validly constructed cell (positive extent) and non-negative
anchor, the computed lower-right corner is (row + height - 1,
col + width - 1). -/
theorem C4_lower_right_corner (v : PyVal) (st : Style) (cm : Option String)
    (cp : List (String × String)) (x y h w : Int)
    (_hx : 0 ≤ x) (_hy : 0 ≤ y) (hh : 0 < h) (hw : 0 < w) :
    ∃ e : Element, Elems.Element.init v h w st cm cp = .ok e ∧
      Elems.Element.xl_loright e x y = (x + h - 1, y + w - 1) := by
  refine ⟨⟨if pandasIsnull v then .vStr ("") else v, h, w, st, cm, cp⟩, ?_, rfl⟩
  simp only [Elems.Element.init]
  rw [if_neg (by omega), if_neg (by omega)]

/-- Witness for C4 at the concrete input x = 4, y = 5, height = 2,
width = 3. -/
theorem C4_lower_right_corner_witness :
    ∃ e : Element, Elems.Element.init (.vStr ("v")) 2 3 [] none [] = .ok e ∧
      Elems.Element.xl_loright e 4 5 = (5, 7) :=
  C4_lower_right_corner (.vStr ("v")) [] none [] 4 5 2 3
    (by decide) (by decide) (by decide) (by decide)

/-- C5: the claim says reset to a saved checkpoint (by name or by integer
index) restores the saved position.  The name path does (third conjunct),
but the integer path evaluates checkpoints[list(checkpoints.keys()[i])]:
the index is applied before the list() conversion, so the char list
list(name) is used as a dict key, which is unhashable — every
integer-index reset raises TypeError and only the history append has
happened (fourth conjunct). -/
theorem C5_reset_checkpoint :
    Drawer.add_checkpoint ⟨1, 2, 0, 0, [], [], []⟩ ("a")
      = ⟨1, 2, 0, 0, [("a", (1, 2))], [], []⟩ ∧
    Drawer.move ⟨1, 2, 0, 0, [("a", (1, 2))], [], []⟩ 4 4 false
      = (⟨5, 6, 0, 0, [("a", (1, 2))], [1], [2]⟩, none) ∧
    Drawer.reset ⟨5, 6, 0, 0, [("a", (1, 2))], [1], [2]⟩ (.name ("a")) 0 0 true true
      = (⟨1, 2, 0, 0, [("a", (1, 2))], [1, 5], [2, 6]⟩, none) ∧
    Drawer.reset ⟨5, 6, 0, 0, [("a", (1, 2))], [1], [2]⟩ (.idx 0) 0 0 true true
      = (⟨5, 6, 0, 0, [("a", (1, 2))], [1, 5], [2, 6]⟩, some .typeError) :=
  ⟨rfl, rfl, rfl, rfl⟩

/-- C7: TreeElement construction: with equal widths it succeeds, its height
is the sum of the parent's and the children's heights and its width is the
parent's width; with differing widths it raises ValueError. -/
theorem C7_tree_extent (p : Element) (c : Elems.Matrix)
    (hp : 1 ≤ p.height) (hc : 1 ≤ c.height) (hw : 1 ≤ p.width) :
    (p.width = c.width →
      Elems.TreeElement.init p c = .ok ⟨p, c, p.height + c.height, p.width⟩) ∧
    (p.width ≠ c.width → Elems.TreeElement.init p c = .error .valueError) := by
  constructor
  · intro he
    simp only [Elems.TreeElement.init]
    rw [if_neg (by simp [he]), if_neg (by omega), if_neg (by omega)]
  · intro hne
    simp only [Elems.TreeElement.init]
    rw [if_pos hne]

/-- Witness for C7: a 1×1 parent over a 2-high children grid of equal
width succeeds with height 3, and the same parent over children of width 5
raises ValueError. -/
theorem C7_tree_extent_witness :
    (Elems.TreeElement.init ⟨.vStr (""), 1, 1, [], none, []⟩ ⟨[], 1, 1, 2, 1⟩
      = .ok ⟨⟨.vStr (""), 1, 1, [], none, []⟩, ⟨[], 1, 1, 2, 1⟩, 3, 1⟩) ∧
    (Elems.TreeElement.init ⟨.vStr (""), 1, 1, [], none, []⟩ ⟨[], 1, 1, 2, 5⟩
      = .error .valueError) :=
  ⟨(C7_tree_extent ⟨.vStr (""), 1, 1, [], none, []⟩ ⟨[], 1, 1, 2, 1⟩
      (by decide) (by decide) (by decide)).1 rfl,
   (C7_tree_extent ⟨.vStr (""), 1, 1, [], none, []⟩ ⟨[], 1, 1, 2, 5⟩
      (by decide) (by decide) (by decide)).2 (by decide)⟩

/-- C9: Matrix.set applies issubclass(value, Element) to its value first;
for any instance (of Element or of its subclass HeaderElement) that raises
TypeError — for every index pair, in bounds or not, so before any bounds
check — and the mapping is never updated with an instance. -/
theorem C9_set_rejects_instances (M : Elems.Matrix) (x y : Int)
    (e : Element) (h : Elems.HeaderElement) :
    Elems.Matrix.set M x y (.instE e) = .error .typeError ∧
    Elems.Matrix.set M x y (.instH h) = .error .typeError :=
  ⟨rfl, rfl⟩

/-- C10: a backward move whose y-decrement makes y negative raises
ValueError after the pre-move position has been appended to both history
lists and after x has already been decremented; when the x-decrement is
itself excessive, the error comes with the histories appended and both
coordinates unchanged. -/
theorem C10_backward_move_not_atomic (d : Drawer) (mx my : Int) :
    (d.x - mx < 0 →
      Drawer.move d mx my true =
        ({ d with prev_x := d.prev_x ++ [d.x], prev_y := d.prev_y ++ [d.y] },
          some .valueError)) ∧
    (0 ≤ d.x - mx → d.y - my < 0 →
      Drawer.move d mx my true =
        ({ d with
            prev_x := d.prev_x ++ [d.x],
            prev_y := d.prev_y ++ [d.y],
            x := d.x - mx }, some .valueError)) := by
  constructor
  · intro h1
    simp [Drawer.move, Drawer.setX, Drawer.setY, h1]
  · intro h1 h2
    have h1' : ¬ d.x - mx < 0 := by omega
    simp [Drawer.move, Drawer.setX, Drawer.setY, h1', h2]

/-- Witness for C10: from position (1, 1) with empty histories, moving back
by (2, 0) leaves (1, 1) with the histories appended and ValueError, and
moving back by (1, 2) leaves x decremented to 0, y unchanged, histories
appended, and ValueError. -/
theorem C10_backward_move_not_atomic_witness :
    Drawer.move ⟨1, 1, 0, 0, [], [], []⟩ 2 0 true
      = (⟨1, 1, 0, 0, [], [1], [1]⟩, some .valueError) ∧
    Drawer.move ⟨1, 1, 0, 0, [], [], []⟩ 1 2 true
      = (⟨0, 1, 0, 0, [], [1], [1]⟩, some .valueError) :=
  ⟨(C10_backward_move_not_atomic ⟨1, 1, 0, 0, [], [], []⟩ 2 0).1 (by decide),
   (C10_backward_move_not_atomic ⟨1, 1, 0, 0, [], [], []⟩ 1 2).2
     (by decide) (by decide)⟩

/-- C2: the claim says the row cursor advances by the maximum height among
the row's cells.  `elements.py` does (first two conjuncts: with row-0
heights 3 and 1, row 1 is drawn at row coordinate 0 + 3 = 3), but
`elements/matrix.py` advances by the height of the LAST cell of the row —
the computed row maximum is dead — so the same grid has its second row
drawn at cross coordinate 0 + 1 = 1 (last two conjuncts).  The grids are
the 2×2 mappings produced by lists_to_matrix from the nested cell lists;
both counts recompute to 2 as the matrix setter does. -/
theorem C2_matrix_row_advance :
    pyCountRows [(((0 : Int), (0 : Int)), (⟨⟨.vStr ("a"), 3, 1, [], none, []⟩, .none, 1⟩ : Elems.HeaderElement)),
        (((0 : Int), (1 : Int)), ⟨⟨.vStr ("b"), 1, 1, [], none, []⟩, .none, 1⟩),
        (((1 : Int), (0 : Int)), ⟨⟨.vStr ("c"), 1, 1, [], none, []⟩, .none, 1⟩),
        (((1 : Int), (1 : Int)), ⟨⟨.vStr ("d"), 1, 1, [], none, []⟩, .none, 1⟩)] = .ok 2 ∧
    Elems.Matrix.draw
      ⟨[(((0 : Int), (0 : Int)), ⟨⟨.vStr ("a"), 3, 1, [], none, []⟩, .none, 1⟩),
        (((0 : Int), (1 : Int)), ⟨⟨.vStr ("b"), 1, 1, [], none, []⟩, .none, 1⟩),
        (((1 : Int), (0 : Int)), ⟨⟨.vStr ("c"), 1, 1, [], none, []⟩, .none, 1⟩),
        (((1 : Int), (1 : Int)), ⟨⟨.vStr ("d"), 1, 1, [], none, []⟩, .none, 1⟩)], 2, 2, 2, 2⟩ 0 0
      = .ok [.mergeRange 0 0 2 0 (.vStr ("a")) [],
             .write 0 1 (.vStr ("b")) [],
             .write 3 0 (.vStr ("c")) [],
             .write 3 1 (.vStr ("d")) []] ∧
    pyListsToMatrix
      [[(⟨⟨.vStr ("a"), 3, 1, [], none, []⟩, (2 : ℚ), 3⟩ : Basic.HeaderElement),
        ⟨⟨.vStr ("b"), 1, 1, [], none, []⟩, 2, 3⟩],
       [⟨⟨.vStr ("c"), 1, 1, [], none, []⟩, 2, 3⟩,
        ⟨⟨.vStr ("d"), 1, 1, [], none, []⟩, 2, 3⟩]]
      = .ok [(((0 : Int), (0 : Int)), ⟨⟨.vStr ("a"), 3, 1, [], none, []⟩, 2, 3⟩),
        (((0 : Int), (1 : Int)), ⟨⟨.vStr ("b"), 1, 1, [], none, []⟩, 2, 3⟩),
        (((1 : Int), (0 : Int)), ⟨⟨.vStr ("c"), 1, 1, [], none, []⟩, 2, 3⟩),
        (((1 : Int), (1 : Int)), ⟨⟨.vStr ("d"), 1, 1, [], none, []⟩, 2, 3⟩)] ∧
    pyCountCols [(((0 : Int), (0 : Int)), (⟨⟨.vStr ("a"), 3, 1, [], none, []⟩, (2 : ℚ), 3⟩ : Basic.HeaderElement)),
        (((0 : Int), (1 : Int)), ⟨⟨.vStr ("b"), 1, 1, [], none, []⟩, 2, 3⟩),
        (((1 : Int), (0 : Int)), ⟨⟨.vStr ("c"), 1, 1, [], none, []⟩, 2, 3⟩),
        (((1 : Int), (1 : Int)), ⟨⟨.vStr ("d"), 1, 1, [], none, []⟩, 2, 3⟩)] = .ok 2 ∧
    MatrixPy.Matrix.draw
      ⟨[(((0 : Int), (0 : Int)), ⟨⟨.vStr ("a"), 3, 1, [], none, []⟩, 2, 3⟩),
        (((0 : Int), (1 : Int)), ⟨⟨.vStr ("b"), 1, 1, [], none, []⟩, 2, 3⟩),
        (((1 : Int), (0 : Int)), ⟨⟨.vStr ("c"), 1, 1, [], none, []⟩, 2, 3⟩),
        (((1 : Int), (1 : Int)), ⟨⟨.vStr ("d"), 1, 1, [], none, []⟩, 2, 3⟩)], 2, 2, 2, 2⟩ 0 0
      = .ok [.mergeRange 0 0 2 0 (.vStr ("a")) [], .setColumn 0 0 2,
             .mergeRange 0 1 0 1 (.vStr ("b")) [], .setColumn 1 1 2,
             .mergeRange 1 0 1 0 (.vStr ("c")) [], .setColumn 0 0 2,
             .write 1 1 (.vStr ("d")) [], .setColumn 1 1 2] :=
  ⟨rfl, rfl, rfl, rfl, rfl⟩

/-- C6 counterexample: a HeaderElement with col_width 'auto' and a null
value constructs with the value normalised to the empty string, and
drawing it DOES issue a set_column call (width (0 + 2·1)/1 = 2) — the
claim's "no set_column call" is false; no error is raised on the way. -/
theorem C6_null_value_counterexample :
    ∃ h : Elems.HeaderElement,
      Elems.HeaderElement.init .vNone 1 1 [] none [] (.strA ("auto")) 1 = .ok h ∧
      Elems.HeaderElement.draw h 0 0
        = [.write 0 0 (.vStr ("")) [], .setColumn 0 0 2] := by
  refine ⟨⟨⟨.vStr (""), 1, 1, [], none, []⟩, .auto, 1⟩, rfl, ?_⟩
  simp [Elems.HeaderElement.draw, Elems.Element.draw,
    Elems.HeaderElement.value_len, pyStr]

/-- C6 amended: with col_width 'auto' and a null value, the value setter
normalises the value to the empty string, so the length computation
succeeds with 0 and drawing raises no error but DOES call set_column with
width (0 + 2·padding)/width; the TypeError catch in the source is dead in
this revision. -/
theorem C6_null_value_amended (x y h w : Int) (st : Style)
    (cp : List (String × String)) (p : ℚ) (hh : 0 < h) (hw : 0 < w) :
    ∃ hd : Elems.HeaderElement,
      Elems.HeaderElement.init .vNone h w st none cp (.strA ("auto")) p = .ok hd ∧
      hd.value = .vStr ("") ∧
      Elems.HeaderElement.draw hd x y =
        Elems.Element.draw hd.toElement x y
          ++ [.setColumn y (y + w - 1) (((0 : ℚ) + p * 2) / (w : ℚ))] := by
  refine ⟨⟨⟨.vStr (""), h, w, st, none, cp⟩, .auto, p⟩, ?_, rfl, ?_⟩
  · simp only [Elems.HeaderElement.init, Elems.Element.init, pandasIsnull]
    rw [if_neg (by omega), if_neg (by omega)]
    rfl
  · simp [Elems.HeaderElement.draw, Elems.HeaderElement.value_len, pyStr]

/-- Witness for the amended C6 at height 1, width 2, padding 3, anchor
(0, 0). -/
theorem C6_null_value_amended_witness :
    ∃ hd : Elems.HeaderElement,
      Elems.HeaderElement.init .vNone 1 2 [] none [] (.strA ("auto")) 3 = .ok hd ∧
      hd.value = .vStr ("") ∧
      Elems.HeaderElement.draw hd 0 0 =
        Elems.Element.draw hd.toElement 0 0
          ++ [.setColumn 0 (0 + 2 - 1) (((0 : ℚ) + 3 * 2) / ((2 : Int) : ℚ))] :=
  C6_null_value_amended 0 0 1 2 [] [] 3 (by decide) (by decide)

/-- C8: drawing a HeaderElement with col_width 'auto', value "abc" and
padding 1.0 sets the occupied columns' width to (3 + 2·1)/width: a 1-wide
cell sets its single column to 5, a 2-wide cell sets both occupied columns
to 5/2 = 2.5. -/
theorem C8_auto_width_values (x y : Int) :
    (∃ h1 : Elems.HeaderElement,
      Elems.HeaderElement.init (.vStr ("abc")) 1 1 [] none [] (.strA ("auto")) 1 = .ok h1 ∧
      Elems.HeaderElement.draw h1 x y
        = [.write x y (.vStr ("abc")) [], .setColumn y y 5]) ∧
    (∃ h2 : Elems.HeaderElement,
      Elems.HeaderElement.init (.vStr ("abc")) 1 2 [] none [] (.strA ("auto")) 1 = .ok h2 ∧
      Elems.HeaderElement.draw h2 x y
        = [.mergeRange x y x (y + 1) (.vStr ("abc")) [], .setColumn y (y + 1) (5 / 2)]) := by
  refine ⟨⟨⟨⟨.vStr ("abc"), 1, 1, [], none, []⟩, .auto, 1⟩, rfl, ?_⟩,
    ⟨⟨⟨.vStr ("abc"), 1, 2, [], none, []⟩, .auto, 1⟩, rfl, ?_⟩⟩
  · simp [Elems.HeaderElement.draw, Elems.Element.draw,
      Elems.HeaderElement.value_len, pyStr]
    norm_num [show ("abc").length = 3 from rfl]
  · simp [Elems.HeaderElement.draw, Elems.Element.draw,
      Elems.HeaderElement.value_len, pyStr]
    norm_num [show ("abc").length = 3 from rfl]
    omega

/-- Supporting lemma (not tied to a single claim): in `elements.py`, a
commentless Element of extent 1×1 draws as a single-cell write at every
anchor. -/
theorem elems_element_draw_single (e : Element) (x y : Int)
    (hw : e.width = 1) (hh : e.height = 1) (hc : e.comment = none) :
    Elems.Element.draw e x y = [.write x y e.value e.style] := by
  simp [Elems.Element.draw, hw, hh, hc]

/-- Supporting lemma: in `elements.py`, a commentless Element whose extent
is not 1×1 merges the range from the anchor to anchor + extent - 1. -/
theorem elems_element_draw_merge (e : Element) (x y : Int)
    (h : ¬ (e.width = 1 ∧ e.height = 1)) (hc : e.comment = none) :
    Elems.Element.draw e x y
      = [.mergeRange x y (x + e.height - 1) (y + e.width - 1) e.value e.style] := by
  rw [Elems.Element.draw, if_neg h]
  simp [hc]

/-- Supporting lemma: in `elements/basic.py`, whether a commentless
Element draws as a write or as a merge depends only on the anchor being
(1, 1), never on the extent. -/
theorem basic_element_draw_by_anchor (e : Element) (x y : Int)
    (hc : e.comment = none) :
    (x = 1 ∧ y = 1 → Basic.Element.draw e x y = [.write x y e.value e.style]) ∧
    (¬ (x = 1 ∧ y = 1) → Basic.Element.draw e x y
      = [.mergeRange y x (y + e.height - 1) (x + e.width - 1) e.value e.style]) := by
  constructor
  · rintro ⟨h1, h2⟩
    simp [Basic.Element.draw, h1, h2, hc]
  · intro h
    rw [Basic.Element.draw, if_neg h]
    simp [hc]

/-- Supporting lemma: the elements of rangeInt n are exactly the ints in
[0, n). -/
theorem mem_rangeInt {j n : Int} (h : j ∈ rangeInt n) : 0 ≤ j ∧ j < n := by
  rw [rangeInt, List.mem_map] at h
  obtain ⟨k, hk, rfl⟩ := h
  rw [List.mem_range] at hk
  omega

/-- Supporting lemma: the inner loop of `elements.py` Matrix.draw follows
the specification walk of the row whenever every lookup in the row
succeeds, and its returned height is the source's fold. -/
theorem elems_drawRow_spec (M : Elems.Matrix) (f : Int → Int → Elems.HeaderElement)
    (i : Int) :
    ∀ (js : List Int), (∀ j ∈ js, Elems.Matrix.get M i j = .ok (f i j)) →
      ∀ (x y acc : Int),
        Elems.Matrix.drawRow M i js x y acc
          = .ok (specRowOps f i js x y, specRowHeight f i js acc) := by
  intro js
  induction js with
  | nil =>
    intro _ x y acc
    simp [Elems.Matrix.drawRow, specRowOps, specRowHeight]
  | cons j rest ih =>
    intro h x y acc
    rw [Elems.Matrix.drawRow, h j (List.mem_cons_self j rest)]
    dsimp only
    rw [ih (fun j' hj' => h j' (List.mem_cons_of_mem j hj'))]
    simp [specRowOps, specRowHeight]

/-- Supporting lemma: the outer loop of `elements.py` Matrix.draw follows
the specification walk of the rows — the row cursor advances by the row
height fold (the row maximum, since all heights are at least one). -/
theorem elems_drawRows_spec (M : Elems.Matrix) (f : Int → Int → Elems.HeaderElement)
    (hget : ∀ i j : Int, 0 ≤ i → i < M.nrow → 0 ≤ j → j < M.ncol →
      Elems.Matrix.get M i j = .ok (f i j)) :
    ∀ (is : List Int), (∀ i ∈ is, 0 ≤ i ∧ i < M.nrow) → ∀ (x y0 : Int),
      Elems.Matrix.drawRows M is x y0 = .ok (specRowsOps f is M.ncol x y0) := by
  intro is
  induction is with
  | nil =>
    intro _ x y0
    simp [Elems.Matrix.drawRows, specRowsOps]
  | cons i rest ih =>
    intro h x y0
    have hi := h i (List.mem_cons_self i rest)
    have hjs : ∀ j ∈ rangeInt M.ncol, Elems.Matrix.get M i j = .ok (f i j) := by
      intro j hj
      exact hget i j hi.1 hi.2 (mem_rangeInt hj).1 (mem_rangeInt hj).2
    rw [Elems.Matrix.drawRows, elems_drawRow_spec M f i (rangeInt M.ncol) hjs]
    dsimp only
    rw [ih (fun i' hi' => h i' (List.mem_cons_of_mem i hi'))]
    simp [specRowsOps]

/-- Supporting lemma: `elements.py` Matrix.draw equals the specification
walk whenever every in-bounds lookup succeeds (as it does for a matrix
holding a full n×m grid). -/
theorem elems_matrix_draw_spec (M : Elems.Matrix) (f : Int → Int → Elems.HeaderElement)
    (hget : ∀ i j : Int, 0 ≤ i → i < M.nrow → 0 ≤ j → j < M.ncol →
      Elems.Matrix.get M i j = .ok (f i j)) (x y : Int) :
    Elems.Matrix.draw M x y = .ok (specRowsOps f (rangeInt M.nrow) M.ncol x y) :=
  elems_drawRows_spec M f hget (rangeInt M.nrow) (fun _ hi => mem_rangeInt hi) x y

/-- Supporting lemma: Python list indexing at -1 returns the last element
of a non-empty list. -/
theorem pyIndex_last {α : Type} (l : List α) (a : α) :
    Drawer.pyIndex (l ++ [a]) (-1) = .ok a := by
  unfold Drawer.pyIndex
  have hlen : ((l ++ [a]).length : Int) = (l.length : Int) + 1 := by
    simp
  rw [if_pos (by omega)]
  rw [if_pos (by omega)]
  have : (((l ++ [a]).length : Int) + (-1)).toNat = l.length := by omega
  rw [this]
  rw [List.get?_concat_length]

/-- Supporting lemma: in `pyxldrawer.py`, a successful move followed by
fallback(1) restores exactly the pre-move position (both coordinates) and
raises nothing, whatever the prior history was. -/
theorem pyxl_move_then_fallback (d : Drawer) (mx my : Int) (back : Bool)
    (hx : 0 ≤ d.x) (hy : 0 ≤ d.y)
    (hok : (Drawer.move d mx my back).2 = none) :
    (Drawer.fallback (Drawer.move d mx my back).1 1).1.x = d.x ∧
    (Drawer.fallback (Drawer.move d mx my back).1 1).1.y = d.y ∧
    (Drawer.fallback (Drawer.move d mx my back).1 1).2 = none := by
  have hx' : ¬ d.x < 0 := by omega
  have hy' : ¬ d.y < 0 := by omega
  cases back with
  | true =>
    by_cases c1 : d.x - mx < 0
    · simp [Drawer.move, Drawer.setX, c1] at hok
    · by_cases c2 : d.y - my < 0
      · simp [Drawer.move, Drawer.setX, Drawer.setY, c1, c2] at hok
      · simp [Drawer.move, Drawer.setX, Drawer.setY, c1, c2,
          Drawer.fallback, pyIndex_last, Drawer.reset, Drawer.assignCoords,
          hx', hy']
  | false =>
    by_cases c1 : d.x + mx < 0
    · simp [Drawer.move, Drawer.setX, c1] at hok
    · by_cases c2 : d.y + my < 0
      · simp [Drawer.move, Drawer.setX, Drawer.setY, c1, c2] at hok
      · simp [Drawer.move, Drawer.setX, Drawer.setY, c1, c2,
          Drawer.fallback, pyIndex_last, Drawer.reset, Drawer.assignCoords,
          hx', hy']

/-- Supporting lemma: in both revisions, reset to a checkpoint saved under
a NAME restores exactly the saved coordinates (appending the current
position to the histories), for any intervening state. -/
theorem reset_name_restores (d : Drawer) (s : String) (cx cy : Int)
    (hlk : d.checkpoints.lookup s = some (cx, cy)) (hx : 0 ≤ cx) (hy : 0 ≤ cy) :
    Drawer.reset d (.name s) 0 0 true true
      = ({ d with
            x := cx,
            y := cy,
            prev_x := d.prev_x ++ [d.x],
            prev_y := d.prev_y ++ [d.y] }, none) := by
  have hx' : ¬ cx < 0 := by omega
  have hy' : ¬ cy < 0 := by omega
  simp [Drawer.reset, Drawer.assignCoords, Drawer.setX, Drawer.setY,
    hlk, hx', hy']

/-- Supporting lemma: reset to an INTEGER checkpoint index raises TypeError
whenever the index is in range of the key list, for every drawer: the char
list list(name) is used as the dict key and lists are unhashable. -/
theorem reset_int_index_raises (d : Drawer) (i : Int) (nm : String)
    (hidx : Drawer.pyIndex (d.checkpoints.map (fun p => p.1)) i = .ok nm) :
    Drawer.reset d (.idx i) 0 0 true true
      = ({ d with
            prev_x := d.prev_x ++ [d.x],
            prev_y := d.prev_y ++ [d.y] }, some .typeError) := by
  simp [Drawer.reset, hidx, Drawer.pyDictLookup, Drawer.PyKey.hashable]
